import Mathlib

/-!
Verification of the GPSBUS navigation core (components/RouteResult.tsx and the
route-planning service) against its natural-language specification.

Modelling conventions:
* A JavaScript `number` is modelled by `JSNum`: either NaN, +Infinity,
  -Infinity, or a finite exact real.  Floating-point rounding is abstracted to
  exact real arithmetic (the spec's distance-symmetry property is itself stated
  "exactly, over exact real arithmetic in the embedding").
* `Math.atan2`, JS `%` (remainder) and `Math.round` are given their standard
  JS semantics over the reals.
* React state updates inside one call of `checkNavigationLogic` are modelled by
  a pure step function `NavState → NavState × List NavEvent`; the `speak` and
  audio side effects become `NavEvent`s.
-/

namespace GPSBUS

/-- A JavaScript number: NaN, an infinity, or a finite real value. -/
inductive JSNum where
  | nan : JSNum
  | inf : JSNum
  | ninf : JSNum
  | fin : ℝ → JSNum

/-- The finite value carried by a `JSNum` (0 for non-finite values; only ever
read behind an `isSafeNumber` guard, mirroring the source's guard pattern). -/
def JSNum.val : JSNum → ℝ
  | .fin x => x
  | _ => 0

/-- RouteResult.tsx `isSafeNumber`: a value is safe iff it is a finite number
(excludes NaN and ±Infinity). -/
def isSafeNumber : JSNum → Bool
  | .fin _ => true
  | _ => false

/-- RouteResult.tsx `isSafeCoordinate` on a (lat, lng) pair: both components
are safe numbers. -/
def isSafeCoordinate (p : JSNum × JSNum) : Bool :=
  isSafeNumber p.1 && isSafeNumber p.2

/-- RouteResult.tsx `toRad`. -/
noncomputable def toRad (d : ℝ) : ℝ := d * Real.pi / 180

/-- RouteResult.tsx `toDeg`. -/
noncomputable def toDeg (r : ℝ) : ℝ := r * 180 / Real.pi

/-- JS `Math.atan2 y x` (standard two-argument arctangent). -/
noncomputable def atan2 (y x : ℝ) : ℝ :=
  if 0 < x then Real.arctan (y / x)
  else if x < 0 then
    (if 0 ≤ y then Real.arctan (y / x) + Real.pi else Real.arctan (y / x) - Real.pi)
  else
    (if 0 < y then Real.pi / 2 else if y < 0 then -(Real.pi / 2) else 0)

/-- JS truncation toward zero (used by the JS `%` operator). -/
noncomputable def jsTrunc (x : ℝ) : ℝ :=
  if x < 0 then (⌈x⌉ : ℝ) else (⌊x⌋ : ℝ)

/-- JS remainder `a % b` (sign follows the dividend). -/
noncomputable def jsFmod (a b : ℝ) : ℝ := a - b * jsTrunc (a / b)

/-- JS `Math.round` (round half toward +∞), as an integer. -/
noncomputable def jsRound (x : ℝ) : ℤ := ⌊x + 1 / 2⌋

/-- The haversine formula body of RouteResult.tsx `getDistance` (the code
after its safety guard), on finite values. -/
noncomputable def haversineDist (lat1 lng1 lat2 lng2 : ℝ) : ℝ :=
  let R : ℝ := 6371e3
  let phi1 := toRad lat1
  let phi2 := toRad lat2
  let dphi := toRad (lat2 - lat1)
  let dlam := toRad (lng2 - lng1)
  let a := Real.sin (dphi / 2) * Real.sin (dphi / 2) +
           Real.cos phi1 * Real.cos phi2 *
           (Real.sin (dlam / 2) * Real.sin (dlam / 2))
  let clampedA := min 1 (max 0 a)
  let c := 2 * atan2 (Real.sqrt clampedA) (Real.sqrt (1 - clampedA))
  R * c

/-- RouteResult.tsx `getDistance`: safe haversine great-circle distance in
meters.  Returns 0 if any input is not a safe (finite) number; clamps the
intermediate haversine term to [0, 1] before the square roots. -/
noncomputable def getDistance (lat1 lng1 lat2 lng2 : JSNum) : ℝ :=
  if isSafeNumber lat1 && isSafeNumber lng1 && isSafeNumber lat2 && isSafeNumber lng2 then
    haversineDist lat1.val lng1.val lat2.val lng2.val
  else 0

/-- RouteResult.tsx `getBearing`: initial great-circle bearing in compass
degrees; 0 for unsafe input. -/
noncomputable def getBearing (lat1 lng1 lat2 lng2 : JSNum) : ℝ :=
  if isSafeNumber lat1 && isSafeNumber lng1 && isSafeNumber lat2 && isSafeNumber lng2 then
    let phi1 := toRad lat1.val
    let phi2 := toRad lat2.val
    let dlam := toRad (lng2.val - lng1.val)
    let y := Real.sin dlam * Real.cos phi2
    let x := Real.cos phi1 * Real.sin phi2 -
             Real.sin phi1 * Real.cos phi2 * Real.cos dlam
    let theta := atan2 y x
    jsFmod (toDeg theta + 360) 360
  else 0

/-- types.ts `ManeuverType`. -/
inductive ManeuverType where
  | straight | turnLeft | turnRight | slightLeft | slightRight
  | uTurn | roundabout | merge | exit | start | endRoute
deriving DecidableEq

/-- RouteResult.tsx `getManeuverText` (switch over the maneuver kind;
`straight`/`start` fall to the default branch). -/
def getManeuverText : ManeuverType → String
  | .turnLeft => "girar a la izquierda"
  | .turnRight => "girar a la derecha"
  | .slightLeft => "mantente a la izquierda"
  | .slightRight => "mantente a la derecha"
  | .uTurn => "dar media vuelta"
  | .roundabout => "entrar en la rotonda"
  | .exit => "tomar la salida"
  | .merge => "incorporarte"
  | .endRoute => "llegar al destino"
  | _ => "continuar"

/-- types.ts `NavigationStep` (the fields the navigation core reads;
`start_location` is optional, and its components may be non-finite). -/
structure NavStep where
  maneuver : ManeuverType
  instruction : String
  distance : String
  hazardWarning : Option String
  start_location : Option (JSNum × JSNum)

/-- Default step used for out-of-bounds list access (never reached behind the
in-bounds guards of the source). -/
def defaultStep : NavStep :=
  { maneuver := .straight, instruction := "", distance := "",
    hazardWarning := none, start_location := none }

/-- JS `Number(step.start_location?.lat)`: NaN when the location is absent. -/
def jsLat (s : NavStep) : JSNum :=
  match s.start_location with
  | some p => p.1
  | none => .nan

/-- JS `Number(step.start_location?.lng)`: NaN when the location is absent. -/
def jsLng (s : NavStep) : JSNum :=
  match s.start_location with
  | some p => p.2
  | none => .nan

/-- Latitude of `steps[i]`'s approach coordinate (NaN when out of bounds or
absent, like `Number(undefined)`). -/
def approachLat (steps : List NavStep) (i : ℕ) : JSNum :=
  match steps.get? i with
  | some s => jsLat s
  | none => .nan

/-- Longitude of `steps[i]`'s approach coordinate. -/
def approachLng (steps : List NavStep) (i : ℕ) : JSNum :=
  match steps.get? i with
  | some s => jsLng s
  | none => .nan

/-- `steps[i]` (with a junk default; only used behind in-bounds guards). -/
def stepAt (steps : List NavStep) (i : ℕ) : NavStep :=
  (steps.get? i).getD defaultStep

/-- Observable effects of one navigation-logic call: a `speak(text, priority)`
call, or the short non-speech acknowledgment sound played on step advance. -/
inductive NavEvent where
  | speakEv : String → Bool → NavEvent
  | playPop : NavEvent
deriving DecidableEq

/-- The session state read and written by `checkNavigationLogic`:
`stepIndex`, `distanceToNext` (the rounded meters stored by
`setDistanceToNext`), the `announcedRef` set of already-spoken announcement
keys, and the `isDriving` flag. -/
structure NavState where
  stepIndex : ℕ
  distanceToNext : ℤ
  announced : List String
  isDriving : Bool

/-- One guarded announcement of `checkNavigationLogic`: if the distance
condition holds and the key is not yet in the announced set, speak and record
the key.  (The JS `Set<string>` is modelled by a list used only through
membership.) -/
def fireIf (c : Prop) [Decidable c] (tag text : String) (priority : Bool)
    (p : List String × List NavEvent) : List String × List NavEvent :=
  if c ∧ tag ∉ p.1 then (tag :: p.1, p.2 ++ [NavEvent.speakEv text priority])
  else p

/-- The five banded announcement checks of `checkNavigationLogic`
(lines 277–308), in source order: hazard-early (700, 800], hazard-critical
(150, 200], distant (450, 500], prepare (150, 200], imminent (30, 50],
each keyed on the current step id. -/
def navAnnounce (nextStep : NavStep) (stepId : String) (dist : ℤ)
    (ann : List String) : List String × List NavEvent :=
  let mt := getManeuverText nextStep.maneuver
  let p0 : List String × List NavEvent := (ann, [])
  let p1 := fireIf (nextStep.hazardWarning.isSome ∧ dist ≤ 800 ∧ 700 < dist)
      (stepId ++ "-haz-early")
      ("Atención en ruta. " ++ nextStep.hazardWarning.getD "") true p0
  let p2 := fireIf (nextStep.hazardWarning.isSome ∧ dist ≤ 200 ∧ 150 < dist)
      (stepId ++ "-haz-crit")
      ("¡Precaución! " ++ nextStep.hazardWarning.getD "") true p1
  let p3 := fireIf (dist ≤ 500 ∧ 450 < dist) (stepId ++ "-500m")
      ("En 500 metros, " ++ mt ++ ". " ++ nextStep.instruction) false p2
  let p4 := fireIf (dist ≤ 200 ∧ 150 < dist) (stepId ++ "-200m")
      ("A 200 metros, prepárate para " ++ mt) false p3
  let p5 := fireIf (dist ≤ 50 ∧ 30 < dist) (stepId ++ "-now")
      (mt ++ " ahora") false p4
  p5

/-- RouteResult.tsx `checkNavigationLogic` (lines 262–330) as a pure step
function on the session state, for one fix `(lat, lng)`.

Notes on the translation:
* `stepIndex < steps.length - 1` over JS numbers equals
  `stepIndex + 1 < steps.length` over ℕ (for `length = 0` the JS comparison
  is `stepIndex < -1`, false, like `stepIndex + 1 < 0` here).
* `distMeters = Math.round(getDistance(...))` is a finite JS number whenever
  it is computed (haversine of safe inputs is finite, and `getDistance`
  returns 0 otherwise), so the source's `isSafeNumber(distMeters)` guard is
  always true and is not represented.
* the final-step comparison `stepIndex === steps.length - 1` is over JS
  numbers, so it is taken over ℤ (for an empty steps list it compares
  against -1 and is false). -/
noncomputable def checkNavigationLogic (steps : List NavStep) (st : NavState)
    (lat lng : JSNum) : NavState × List NavEvent :=
  if st.stepIndex + 1 < steps.length then
    let nLat := approachLat steps (st.stepIndex + 1)
    let nLng := approachLng steps (st.stepIndex + 1)
    if isSafeNumber nLat && isSafeNumber nLng then
      let distMeters := jsRound (getDistance lat lng nLat nLng)
      let stepId := "step-" ++ toString st.stepIndex
      let ae := navAnnounce (stepAt steps (st.stepIndex + 1)) stepId distMeters
          st.announced
      if distMeters < 25 then
        ({ stepIndex := st.stepIndex + 1, distanceToNext := distMeters,
           announced := ae.1, isDriving := st.isDriving },
         ae.2 ++ [NavEvent.playPop])
      else
        ({ stepIndex := st.stepIndex, distanceToNext := distMeters,
           announced := ae.1, isDriving := st.isDriving }, ae.2)
    else (st, [])
  else
    if (st.stepIndex : ℤ) = (steps.length : ℤ) - 1 ∧ "finished" ∉ st.announced then
      ({ stepIndex := st.stepIndex, distanceToNext := 0,
         announced := "finished" :: st.announced, isDriving := false },
       [NavEvent.speakEv "Has llegado a tu destino." false])
    else
      ({ st with distanceToNext := 0 }, [])

/-- Process a sequence of fixes in arrival order. -/
noncomputable def runFixes (steps : List NavStep)
    (fixes : List (JSNum × JSNum)) (st : NavState) : NavState × List NavEvent :=
  match fixes with
  | [] => (st, [])
  | f :: rest =>
    let r1 := checkNavigationLogic steps st f.1 f.2
    let r2 := runFixes steps rest r1.1
    (r2.1, r1.2 ++ r2.2)

/-- The announcement keyed `t` fires on this fix: it was not yet recorded and
the fix records it (in the source this coincides with the matching `speak`
call, which is guarded by exactly this membership test). -/
def firedOn (steps : List NavStep) (st : NavState) (lat lng : JSNum)
    (t : String) : Prop :=
  t ∉ st.announced ∧ t ∈ (checkNavigationLogic steps st lat lng).1.announced

noncomputable instance (steps : List NavStep) (st : NavState) (lat lng : JSNum)
    (t : String) : Decidable (firedOn steps st lat lng t) := by
  unfold firedOn; infer_instance

/-- How many fixes of the sequence fire the announcement keyed `t`. -/
noncomputable def countFires (steps : List NavStep)
    (fixes : List (JSNum × JSNum)) (st : NavState) (t : String) : ℕ :=
  match fixes with
  | [] => 0
  | f :: rest =>
    (if firedOn steps st f.1 f.2 t then 1 else 0) +
      countFires steps rest (checkNavigationLogic steps st f.1 f.2).1 t

/-- RouteResult.tsx `SAFE_DEFAULT_CENTER`. -/
def SAFE_DEFAULT_CENTER : JSNum × JSNum := (.fin 40.4168, .fin (-3.7038))

/-- The inputs of the `routePoints` memo: the route's dense polyline and its
steps (a missing `route.path` is the empty list, for which
`route.path && route.path.length > 2` is false either way). -/
structure RouteOptionM where
  path : List (JSNum × JSNum)
  steps : List NavStep

/-- RouteResult.tsx `routePoints` (lines 238–253): take the dense path
filtered to safe coordinates when it has more than 2 points, otherwise the
safe step approach coordinates; fall back to the single safe default center
when nothing survives. -/
def routePoints (route : RouteOptionM) : List (JSNum × JSNum) :=
  let points :=
    if route.path.length > 2 then
      route.path.filter (fun p => isSafeCoordinate p)
    else
      route.steps.filterMap (fun s =>
        if isSafeNumber (jsLat s) && isSafeNumber (jsLng s) then
          some (jsLat s, jsLng s)
        else none)
  if points.length = 0 then [SAFE_DEFAULT_CENTER] else points

/-- Loop body of the service's `removeDuplicateCoords` (part_001 lines 37–53):
`prev` is the last kept point; keep `curr` only if it differs from `prev` by
more than 0.00001 in latitude or longitude.  Coordinates here are the exact
rationals carried by the already-validated clean path. -/
def dedupGo (prev : ℚ × ℚ) : List (ℚ × ℚ) → List (ℚ × ℚ)
  | [] => []
  | curr :: rest =>
    if |prev.1 - curr.1| > 1 / 100000 ∨ |prev.2 - curr.2| > 1 / 100000 then
      curr :: dedupGo curr rest
    else dedupGo prev rest

/-- The service's `removeDuplicateCoords`: keep the first point, then drop
consecutive near-duplicates. -/
def removeDuplicateCoords : List (ℚ × ℚ) → List (ℚ × ℚ)
  | [] => []
  | c :: rest => c :: dedupGo c rest

/-- State touched by one simulated animation frame: the vehicle marker, the
smoothed speed, the fractional progress cursor and the shared navigation
state (whose `isDriving` field is the session's driving flag). -/
structure SimState where
  vehiclePos : JSNum × JSNum
  heading : ℝ
  speed : ℝ
  progress : ℝ
  nav : NavState

/-- RouteResult.tsx `simulateFrame` (lines 333–397) as a pure function of one
tick.  The returned `Bool` records whether the tick scheduled another
animation frame (`requestAnimationFrame` reached).

Translation notes:
* refs and state cells hold exact reals here, so the defensive
  `isSafeNumber` re-checks on `progressRef.current`, the smoothed speed, the
  interpolated coordinate and the bearing (all finite in exact arithmetic)
  are always true and drop out;
* `Math.max(speed, 10)` reads the stale `speed` closure value, i.e. the
  pre-update `st.speed`, exactly as the source does. -/
noncomputable def simulateFrame (routePoints : List (JSNum × JSNum))
    (steps : List NavStep) (st : SimState) :
    SimState × Bool × List NavEvent :=
  if routePoints.length < 2 then (st, false, [])
  else if st.progress ≥ (routePoints.length : ℝ) - 1.001 then
    ({ st with nav := { st.nav with isDriving := false }, speed := 0 },
     false, [])
  else
    let curIdx : ℤ := ⌊st.progress⌋
    let nextIdx : ℤ := curIdx + 1
    if curIdx < 0 ∨ (routePoints.length : ℤ) ≤ nextIdx then
      let clamped := min (max 0 (curIdx : ℝ)) ((routePoints.length : ℝ) - 1)
      ({ st with progress := clamped }, false, [])
    else
      let p1 := routePoints.getD curIdx.toNat (.nan, .nan)
      let p2 := routePoints.getD nextIdx.toNat (.nan, .nan)
      if !(isSafeCoordinate p1 && isSafeCoordinate p2) then
        ({ st with progress := (nextIdx : ℝ) }, true, [])
      else
        let segmentLen := getDistance p1.1 p1.2 p2.1 p2.2
        let targetSpeedKmh : ℝ :=
          if segmentLen > 100 then 90 else if segmentLen > 50 then 60 else 30
        let newSpeed := st.speed + (targetSpeedKmh - st.speed) * 0.05
        let currentSpeed := max st.speed 10
        let frameDist := currentSpeed / 3.6 / 60
        let advanceFraction :=
          if segmentLen > 0.1 then frameDist / segmentLen else 1
        let progress2 := st.progress + advanceFraction
        let localT := progress2 - (curIdx : ℝ)
        let newLat := p1.1.val + (p2.1.val - p1.1.val) * localT
        let newLng := p1.2.val + (p2.2.val - p1.2.val) * localT
        let newHeading := getBearing p1.1 p1.2 p2.1 p2.2
        let r := checkNavigationLogic steps st.nav (.fin newLat) (.fin newLng)
        ({ vehiclePos := (.fin newLat, .fin newLng), heading := newHeading,
           speed := newSpeed, progress := progress2, nav := r.1 },
         true, r.2)

/-- Vehicle display state updated by the live-GPS callback. -/
structure VehicleState where
  vehiclePos : JSNum × JSNum
  heading : ℝ
  speed : ℝ
  gpsAccuracy : Option ℝ

/-- The `watchPosition` success callback of RouteResult.tsx `startRealGPS`
(lines 407–418): record accuracy (or null), and only for a safe coordinate
update the position, forward heading and speed if individually safe
(speed converted from m/s to km/h), and run the navigation logic. -/
noncomputable def onGpsFix (steps : List NavStep) (v : VehicleState)
    (nav : NavState) (latitude longitude gpsHeading gpsSpeed accuracy : JSNum) :
    VehicleState × NavState × List NavEvent :=
  let v1 := { v with gpsAccuracy :=
      if isSafeNumber accuracy then some accuracy.val else none }
  if isSafeNumber latitude && isSafeNumber longitude then
    let r := checkNavigationLogic steps nav latitude longitude
    ({ v1 with
        vehiclePos := (latitude, longitude),
        heading := if isSafeNumber gpsHeading then gpsHeading.val else v.heading,
        speed := if isSafeNumber gpsSpeed then gpsSpeed.val * 3.6 else v.speed },
     r.1, r.2)
  else (v1, nav, [])

/-- The exact condition under which `checkNavigationLogic` advances the step
index on one fix: the index is below the final step, the next step's approach
coordinate is safe, and the rounded distance from the fix to it is strictly
below 25 meters. -/
def advanceCond (steps : List NavStep) (st : NavState) (lat lng : JSNum) : Prop :=
  st.stepIndex + 1 < steps.length ∧
  isSafeNumber (approachLat steps (st.stepIndex + 1)) = true ∧
  isSafeNumber (approachLng steps (st.stepIndex + 1)) = true ∧
  jsRound (getDistance lat lng (approachLat steps (st.stepIndex + 1))
    (approachLng steps (st.stepIndex + 1))) < 25

/-- Rounded distance from a fix to the approach coordinate of step `i + 1`,
as computed inside `checkNavigationLogic` when the current index is `i`. -/
noncomputable def distOf (steps : List NavStep) (i : ℕ) (f : JSNum × JSNum) : ℤ :=
  jsRound (getDistance f.1 f.2 (approachLat steps (i + 1)) (approachLng steps (i + 1)))

/-- Concrete two-step route used to exercise the engine: the second step's
approach coordinate sits at the equator origin. -/
def demoSteps : List NavStep :=
  [{ maneuver := .start, instruction := "Inicio", distance := "",
     hazardWarning := none, start_location := some (.fin 0, .fin 1) },
   { maneuver := .turnLeft, instruction := "Gira", distance := "",
     hazardWarning := none, start_location := some (.fin 0, .fin 0) }]

/-- Concrete one-step route (the vehicle is already on its final step). -/
def demoStepsFinal : List NavStep :=
  [{ maneuver := .endRoute, instruction := "Fin", distance := "",
     hazardWarning := none, start_location := some (.fin 0, .fin 0) }]

/-- Fresh session state at step 0 with nothing announced. -/
def demoState : NavState :=
  { stepIndex := 0, distanceToNext := 0, announced := [], isDriving := true }

/-- A fix on the equator 0.0042 degrees of longitude away from the approach
coordinate of `demoSteps`' step 1 (great-circle distance ≈ 467 m, inside the
distant-announcement band). -/
def demoFix : JSNum × JSNum := (.fin 0, .fin 0.0042)

/-- Concrete simulation state for exercising `simulateFrame`. -/
def demoSimState : SimState :=
  { vehiclePos := (.fin 0, .fin 0), heading := 0, speed := 0, progress := 0,
    nav := demoState }

/-- Concrete vehicle display state for exercising the live-GPS callback. -/
def demoVehicle : VehicleState :=
  { vehiclePos := (.fin 40, .fin (-3)), heading := 77, speed := 33,
    gpsAccuracy := none }

/-- A route whose dense path is unusable and whose two steps share one
coordinate: the navigation path it yields has two identical consecutive
points. -/
def dupRoute : RouteOptionM :=
  { path := [],
    steps :=
      [{ maneuver := .start, instruction := "a", distance := "",
         hazardWarning := none, start_location := some (.fin 40, .fin (-3)) },
       { maneuver := .endRoute, instruction := "b", distance := "",
         hazardWarning := none, start_location := some (.fin 40, .fin (-3)) }] }

/-- A route in which every coordinate candidate (dense path and steps) is
unsafe. -/
def invalidRoute : RouteOptionM :=
  { path := [(.nan, .fin 0), (.fin 1, .nan), (.nan, .nan)],
    steps :=
      [{ maneuver := .start, instruction := "a", distance := "",
         hazardWarning := none, start_location := none },
       { maneuver := .endRoute, instruction := "b", distance := "",
         hazardWarning := none, start_location := some (.inf, .fin 2) }] }

/-! ## Basic lemmas about the geometry helpers -/

theorem atan2_one_zero : atan2 1 0 = Real.pi / 2 := by
  unfold atan2; norm_num

theorem toRad_zero : toRad 0 = 0 := by
  unfold toRad; ring

/-- The haversine body is symmetric in its two coordinates (exact real
arithmetic). -/
theorem haversineDist_symm (x1 y1 x2 y2 : ℝ) :
    haversineDist x1 y1 x2 y2 = haversineDist x2 y2 x1 y1 := by
  simp only [haversineDist]
  have e1 : toRad (x1 - x2) / 2 = -(toRad (x2 - x1) / 2) := by unfold toRad; ring
  have e2 : toRad (y1 - y2) / 2 = -(toRad (y2 - y1) / 2) := by unfold toRad; ring
  rw [e1, e2]
  simp only [Real.sin_neg]
  ring_nf

/-! ## C8: distance symmetry -/

/-- C8: for all valid (safe) coordinates `(a, b)` and `(c, d)`,
`getDistance a b c d = getDistance c d a b`, exactly, over the exact real
arithmetic of the embedding. -/
theorem getDistance_symm (a b c d : JSNum)
    (h1 : isSafeNumber a = true) (h2 : isSafeNumber b = true)
    (h3 : isSafeNumber c = true) (h4 : isSafeNumber d = true) :
    getDistance a b c d = getDistance c d a b := by
  unfold getDistance
  rw [h1, h2, h3, h4]
  simp only [Bool.and_self, if_true]
  exact haversineDist_symm _ _ _ _

/-- Witness for C8 at the concrete valid coordinates (1, 2) and (3, 4). -/
theorem getDistance_symm_witness :
    isSafeNumber (.fin 1) = true ∧
    getDistance (.fin 1) (.fin 2) (.fin 3) (.fin 4) =
      getDistance (.fin 3) (.fin 4) (.fin 1) (.fin 2) :=
  ⟨rfl, getDistance_symm (.fin 1) (.fin 2) (.fin 3) (.fin 4) rfl rfl rfl rfl⟩

/-! ## C4: invalid-input containment -/

/-- C4 (amended): for inputs containing NaN or an infinity (a non-finite
number), both `getDistance` and `getBearing` return 0. -/
theorem unsafe_input_returns_zero (a b c d : JSNum)
    (h : (isSafeNumber a && isSafeNumber b && isSafeNumber c && isSafeNumber d)
      = false) :
    getDistance a b c d = 0 ∧ getBearing a b c d = 0 := by
  unfold getDistance getBearing
  rw [h]
  simp

/-- Witness for the amended C4 at a NaN latitude. -/
theorem unsafe_input_returns_zero_witness :
    (isSafeNumber .nan && isSafeNumber (.fin 0) && isSafeNumber (.fin 0) &&
      isSafeNumber (.fin 0)) = false ∧
    getDistance .nan (.fin 0) (.fin 0) (.fin 0) = 0 ∧
    getBearing .nan (.fin 0) (.fin 0) (.fin 0) = 0 :=
  ⟨rfl, unsafe_input_returns_zero .nan (.fin 0) (.fin 0) (.fin 0) rfl⟩

/-- Counterexample to C4 as stated: latitude 180 is finite but outside
[-90, 90], yet `getDistance` does not return 0 on it — it computes the
spherical formula (here 6371000·π meters). -/
theorem getDistance_out_of_range_cex :
    getDistance (.fin 180) (.fin 0) (.fin 0) (.fin 0) ≠ 0 := by
  have hval : getDistance (.fin 180) (.fin 0) (.fin 0) (.fin 0) =
      6371e3 * Real.pi := by
    unfold getDistance
    simp only [isSafeNumber, Bool.and_self, if_true, JSNum.val]
    simp only [haversineDist]
    have e1 : toRad ((0:ℝ) - 180) / 2 = -(Real.pi / 2) := by unfold toRad; ring
    have e2 : toRad ((0:ℝ) - 0) / 2 = 0 := by unfold toRad; ring
    have e3 : toRad (180:ℝ) = Real.pi := by unfold toRad; ring
    rw [e1, e2, e3, toRad_zero, Real.sin_neg, Real.sin_pi_div_two,
      Real.sin_zero, Real.cos_pi, Real.cos_zero]
    norm_num [atan2_one_zero]
    ring
  rw [hval]
  have := Real.pi_pos
  positivity

/-! ## C9: short-path simulation tick is a no-op -/

/-- C9: if the normalized route path has fewer than two points, one
simulation tick leaves the whole state (vehicle position, heading, speed,
progress cursor, step index, driving flag) unchanged, emits nothing, and
schedules no further animation frame. -/
theorem simulateFrame_short_path_noop (pts : List (JSNum × JSNum))
    (steps : List NavStep) (st : SimState) (h : pts.length < 2) :
    (simulateFrame pts steps st).1 = st ∧
    (simulateFrame pts steps st).2.1 = false ∧
    (simulateFrame pts steps st).2.2 = [] := by
  unfold simulateFrame
  rw [if_pos h]
  exact ⟨rfl, rfl, rfl⟩

/-- Witness for C9 on the empty path. -/
theorem simulateFrame_short_path_noop_witness :
    ([] : List (JSNum × JSNum)).length < 2 ∧
    (simulateFrame [] demoSteps demoSimState).1 = demoSimState ∧
    (simulateFrame [] demoSteps demoSimState).2.1 = false :=
  ⟨by decide,
   (simulateFrame_short_path_noop [] demoSteps demoSimState (by decide)).1,
   (simulateFrame_short_path_noop [] demoSteps demoSimState (by decide)).2.1⟩

/-! ## C7: live fixes with unsafe heading/speed keep the previous values -/

/-- C7: a live GPS fix with a safe coordinate updates the vehicle position;
if its heading is unsafe the stored heading keeps its previous value, and if
its speed is unsafe the stored speed keeps its previous value. -/
theorem gps_fix_keeps_previous_heading (steps : List NavStep)
    (v : VehicleState) (nav : NavState) (lat lng hd sp acc : JSNum)
    (h1 : isSafeNumber lat = true) (h2 : isSafeNumber lng = true)
    (h3 : isSafeNumber hd = false) :
    (onGpsFix steps v nav lat lng hd sp acc).1.vehiclePos = (lat, lng) ∧
    (onGpsFix steps v nav lat lng hd sp acc).1.heading = v.heading ∧
    (isSafeNumber sp = false →
      (onGpsFix steps v nav lat lng hd sp acc).1.speed = v.speed) := by
  unfold onGpsFix
  rw [h1, h2, h3]
  refine ⟨rfl, by simp, fun hsp => by rw [hsp]; simp⟩

/-- Witness for C7: safe coordinate, NaN heading and NaN speed. -/
theorem gps_fix_keeps_previous_heading_witness :
    isSafeNumber (.fin 40) = true ∧ isSafeNumber .nan = false ∧
    (onGpsFix demoSteps demoVehicle demoState (.fin 40) (.fin 3) .nan .nan
      .nan).1.heading = demoVehicle.heading :=
  ⟨rfl, rfl,
   (gps_fix_keeps_previous_heading demoSteps demoVehicle demoState (.fin 40)
     (.fin 3) .nan .nan .nan rfl rfl rfl).2.1⟩

/-! ## C6: all-invalid input collapses to the single fallback point -/

/-- C6: when every coordinate candidate of the route (every dense-path entry
and every step approach coordinate) is unsafe, the navigation path is exactly
one point, the fixed safe fallback coordinate. -/
theorem routePoints_all_invalid (route : RouteOptionM)
    (h1 : route.path.all (fun p => !(isSafeCoordinate p)) = true)
    (h2 : route.steps.all
      (fun s => !(isSafeNumber (jsLat s) && isSafeNumber (jsLng s))) = true) :
    routePoints route = [SAFE_DEFAULT_CENTER] := by
  unfold routePoints
  have hf : route.path.filter (fun p => isSafeCoordinate p) = [] := by
    rw [List.filter_eq_nil_iff]
    intro a ha
    have := List.all_eq_true.mp h1 a ha
    simpa using this
  have hfm : route.steps.filterMap
      (fun s => if isSafeNumber (jsLat s) && isSafeNumber (jsLng s) then
        some (jsLat s, jsLng s) else none) = [] := by
    rw [List.filterMap_eq_nil_iff]
    intro s hs
    have := List.all_eq_true.mp h2 s hs
    simp only [Bool.not_eq_true'] at this
    rw [if_neg (by rw [this]; exact Bool.false_ne_true)]
  split_ifs with hlen
  · rw [hf]; simp
  · rw [hfm]; simp

/-- Witness for C6 on a route whose three path points and two steps are all
unsafe. -/
theorem routePoints_all_invalid_witness :
    invalidRoute.path.all (fun p => !(isSafeCoordinate p)) = true ∧
    routePoints invalidRoute = [SAFE_DEFAULT_CENTER] :=
  ⟨rfl, routePoints_all_invalid invalidRoute rfl rfl⟩

/-! ## C5: consecutive near-duplicate collapsing -/

/-- The output of `dedupGo` keeps every kept point more than the epsilon away
(in latitude or longitude) from the previously kept point. -/
theorem dedupGo_chain (rest : List (ℚ × ℚ)) :
    ∀ prev : ℚ × ℚ, List.Chain'
      (fun p q => 1 / 100000 < |p.1 - q.1| ∨ 1 / 100000 < |p.2 - q.2|)
      (prev :: dedupGo prev rest) := by
  induction rest with
  | nil => intro prev; simp [dedupGo]
  | cons c rs ih =>
    intro prev
    unfold dedupGo
    split_ifs with hc
    · exact List.Chain'.cons hc (ih c)
    · exact ih prev

/-- C5 (amended): the service's `removeDuplicateCoords` never returns two
consecutive points within 0.00001 degrees of each other in both coordinates
(a kept point always differs from its predecessor by more than the epsilon in
latitude or in longitude). -/
theorem removeDuplicateCoords_no_near_dups (coords : List (ℚ × ℚ)) :
    List.Chain'
      (fun p q => 1 / 100000 < |p.1 - q.1| ∨ 1 / 100000 < |p.2 - q.2|)
      (removeDuplicateCoords coords) := by
  cases coords with
  | nil => simp [removeDuplicateCoords]
  | cons c rest => exact dedupGo_chain rest c

/-- Counterexample to C5 as stated: the navigation path built by
`routePoints` is not re-deduplicated — a route whose dense path is unusable
and whose steps repeat a coordinate yields two identical consecutive points
(0 < 0.00001 degrees apart). -/
theorem routePoints_near_dup_cex :
    routePoints dupRoute = [(.fin 40, .fin (-3)), (.fin 40, .fin (-3))] ∧
    ¬ List.Chain'
      (fun p q : JSNum × JSNum =>
        1 / 100000 < |p.1.val - q.1.val| ∨ 1 / 100000 < |p.2.val - q.2.val|)
      (routePoints dupRoute) := by
  have h : routePoints dupRoute = [(.fin 40, .fin (-3)), (.fin 40, .fin (-3))] := by
    rfl
  refine ⟨h, ?_⟩
  rw [h]
  intro hch
  have := List.chain'_cons.mp hch
  rcases this.1 with hlat | hlng
  · simp only [JSNum.val] at hlat
    norm_num at hlat
  · simp only [JSNum.val] at hlng
    norm_num at hlng

/-! ## C10: a session with zero steps can never arrive -/

/-- C10: with an empty steps list, processing any fix just sets
distance-to-next to 0 and emits nothing: the announced set and the driving
flag are untouched over any fix sequence, and the arrival announcement never
fires. -/
theorem empty_steps_never_arrives (st : NavState) (lat lng : JSNum)
    (fixes : List (JSNum × JSNum)) :
    checkNavigationLogic [] st lat lng = ({ st with distanceToNext := 0 }, []) ∧
    (runFixes [] fixes st).1.isDriving = st.isDriving ∧
    (runFixes [] fixes st).1.announced = st.announced ∧
    countFires [] fixes st "finished" = 0 := by
  have key : ∀ st' : NavState, ∀ la ln : JSNum,
      checkNavigationLogic [] st' la ln = ({ st' with distanceToNext := 0 }, []) := by
    intro st' la ln
    unfold checkNavigationLogic
    rw [if_neg (by simp), if_neg ?_]
    intro hcon
    have h1 := hcon.1
    simp only [List.length_nil, Nat.cast_zero] at h1
    omega
  refine ⟨key st lat lng, ?_⟩
  induction fixes generalizing st with
  | nil => exact ⟨rfl, rfl, rfl⟩
  | cons f rest ih =>
    have hstep := key st f.1 f.2
    have hfired : ¬ firedOn [] st f.1 f.2 "finished" := by
      unfold firedOn
      rw [hstep]
      intro hcon
      exact hcon.1 hcon.2
    refine ⟨?_, ?_, ?_⟩
    · unfold runFixes
      rw [hstep]
      exact (ih ({ st with distanceToNext := 0 })).1
    · unfold runFixes
      rw [hstep]
      exact (ih ({ st with distanceToNext := 0 })).2.1
    · unfold countFires
      rw [if_neg hfired, hstep]
      simpa using (ih ({ st with distanceToNext := 0 })).2.2

/-! ## Structural lemmas about one navigation-logic step -/

theorem check_stepIndex_le (steps : List NavStep) (st : NavState)
    (lat lng : JSNum) :
    st.stepIndex ≤ (checkNavigationLogic steps st lat lng).1.stepIndex := by
  simp only [checkNavigationLogic]
  split_ifs <;> simp

theorem check_stepIndex_le_succ (steps : List NavStep) (st : NavState)
    (lat lng : JSNum) :
    (checkNavigationLogic steps st lat lng).1.stepIndex ≤ st.stepIndex + 1 := by
  simp only [checkNavigationLogic]
  split_ifs <;> simp

theorem check_stepIndex_succ_iff (steps : List NavStep) (st : NavState)
    (lat lng : JSNum) :
    (checkNavigationLogic steps st lat lng).1.stepIndex = st.stepIndex + 1 ↔
      advanceCond steps st lat lng := by
  simp only [checkNavigationLogic, advanceCond]
  split_ifs with h1 h2 h3
  · rw [Bool.and_eq_true] at h2
    simp only [true_iff]
    exact ⟨h1, h2.1, h2.2, h3⟩
  · simp only [iff_false]
    constructor
    · intro habs; omega
    · intro hc; exact (h3 hc.2.2.2).elim
  · simp only [iff_false]
    constructor
    · intro habs; omega
    · intro hc; exact (h2 (by rw [hc.2.1, hc.2.2.1]; rfl)).elim
  · simp only [iff_false]
    constructor
    · intro habs; omega
    · intro hc; exact (h1 hc.1).elim
  · simp only [iff_false]
    constructor
    · intro habs; omega
    · intro hc; exact (h1 hc.1).elim

theorem fireIf_subset (c : Prop) [Decidable c] (tag text : String)
    (pr : Bool) (p : List String × List NavEvent) {t : String}
    (h : t ∈ p.1) : t ∈ (fireIf c tag text pr p).1 := by
  unfold fireIf
  split_ifs
  · exact List.mem_cons_of_mem _ h
  · exact h

theorem fireIf_mem_self (c : Prop) [Decidable c] (tag text : String)
    (pr : Bool) (p : List String × List NavEvent) :
    tag ∈ (fireIf c tag text pr p).1 ↔ tag ∈ p.1 ∨ c := by
  unfold fireIf
  split_ifs with h
  · simp only [List.mem_cons, true_or, true_iff]
    exact Or.inr h.1
  · rw [not_and_or, not_not] at h
    constructor
    · exact Or.inl
    · rintro (hm | hc)
      · exact hm
      · rcases h with h | h
        · exact absurd hc h
        · exact h

theorem fireIf_mem_ne (c : Prop) [Decidable c] (tag text : String)
    (pr : Bool) (p : List String × List NavEvent) {t : String}
    (hne : t ≠ tag) : t ∈ (fireIf c tag text pr p).1 ↔ t ∈ p.1 := by
  unfold fireIf
  split_ifs
  · simp [List.mem_cons, hne]
  · exact Iff.rfl

theorem navAnnounce_subset (ns : NavStep) (sid : String) (d : ℤ)
    (ann : List String) {t : String} (h : t ∈ ann) :
    t ∈ (navAnnounce ns sid d ann).1 := by
  simp only [navAnnounce]
  exact fireIf_subset _ _ _ _ _ (fireIf_subset _ _ _ _ _
    (fireIf_subset _ _ _ _ _ (fireIf_subset _ _ _ _ _
      (fireIf_subset _ _ _ _ _ h))))

/-- Appending distinct suffixes to one string gives distinct strings. -/
theorem append_ne_of_ne (s : String) {a b : String} (h : a ≠ b) :
    s ++ a ≠ s ++ b := by
  intro he
  apply h
  apply String.ext
  have hd := congrArg String.data he
  rw [String.data_append, String.data_append] at hd
  exact List.append_cancel_left hd

/-- Membership of the distant-announcement key in the announcement pass:
it is recorded exactly when it was already recorded or the distance lies in
the (450, 500] band. -/
theorem navAnnounce_mem_500 (ns : NavStep) (sid : String) (d : ℤ)
    (ann : List String) :
    sid ++ "-500m" ∈ (navAnnounce ns sid d ann).1 ↔
      sid ++ "-500m" ∈ ann ∨ (d ≤ 500 ∧ 450 < d) := by
  simp only [navAnnounce]
  rw [fireIf_mem_ne _ _ _ _ _ (append_ne_of_ne sid (by decide)),
    fireIf_mem_ne _ _ _ _ _ (append_ne_of_ne sid (by decide)),
    fireIf_mem_self,
    fireIf_mem_ne _ _ _ _ _ (append_ne_of_ne sid (by decide)),
    fireIf_mem_ne _ _ _ _ _ (append_ne_of_ne sid (by decide))]

theorem check_announced_mono (steps : List NavStep) (st : NavState)
    (lat lng : JSNum) {t : String} (h : t ∈ st.announced) :
    t ∈ (checkNavigationLogic steps st lat lng).1.announced := by
  simp only [checkNavigationLogic]
  split_ifs <;> simp only
  · exact navAnnounce_subset _ _ _ _ h
  · exact navAnnounce_subset _ _ _ _ h
  · exact h
  · exact List.mem_cons_of_mem _ h
  · exact h

theorem countFires_of_mem (steps : List NavStep)
    (fixes : List (JSNum × JSNum)) (st : NavState) {t : String}
    (h : t ∈ st.announced) : countFires steps fixes st t = 0 := by
  induction fixes generalizing st with
  | nil => rfl
  | cons f rest ih =>
    unfold countFires
    rw [if_neg (fun hf => hf.1 h)]
    rw [ih _ (check_announced_mono steps st f.1 f.2 h)]

theorem countFires_le_one (steps : List NavStep)
    (fixes : List (JSNum × JSNum)) (st : NavState) (t : String) :
    countFires steps fixes st t ≤ 1 := by
  induction fixes generalizing st with
  | nil => exact Nat.zero_le 1
  | cons f rest ih =>
    unfold countFires
    by_cases hf : firedOn steps st f.1 f.2 t
    · rw [if_pos hf, countFires_of_mem steps rest _ hf.2]
    · rw [if_neg hf]
      simpa using ih (checkNavigationLogic steps st f.1 f.2).1

theorem runFixes_stepIndex_mono (steps : List NavStep)
    (fixes : List (JSNum × JSNum)) (st : NavState) :
    st.stepIndex ≤ (runFixes steps fixes st).1.stepIndex := by
  induction fixes generalizing st with
  | nil => exact Nat.le_refl _
  | cons f rest ih =>
    unfold runFixes
    exact Nat.le_trans (check_stepIndex_le steps st f.1 f.2)
      (ih (checkNavigationLogic steps st f.1 f.2).1)

/-! ## C1: step-advance monotonicity -/

/-- C1: the step index is non-decreasing over any fix sequence; on one fix it
never grows by more than one, and it grows by exactly one iff the index is
below the final step, the next step's approach coordinate is safe, and the
rounded distance from the fix to it is strictly below 25 m (`advanceCond`). -/
theorem step_advance_monotonicity (steps : List NavStep) (st : NavState)
    (lat lng : JSNum) (fixes : List (JSNum × JSNum)) :
    st.stepIndex ≤ (runFixes steps fixes st).1.stepIndex ∧
    (checkNavigationLogic steps st lat lng).1.stepIndex ≤ st.stepIndex + 1 ∧
    ((checkNavigationLogic steps st lat lng).1.stepIndex = st.stepIndex + 1 ↔
      advanceCond steps st lat lng) :=
  ⟨runFixes_stepIndex_mono steps fixes st,
   check_stepIndex_le_succ steps st lat lng,
   check_stepIndex_succ_iff steps st lat lng⟩

/-! ## C3: arrival terminality -/

theorem check_final_not_announced (steps : List NavStep) (st : NavState)
    (lat lng : JSNum) (h : st.stepIndex + 1 = steps.length)
    (hm : "finished" ∉ st.announced) :
    checkNavigationLogic steps st lat lng =
      ({ stepIndex := st.stepIndex, distanceToNext := 0,
         announced := "finished" :: st.announced, isDriving := false },
       [NavEvent.speakEv "Has llegado a tu destino." false]) := by
  simp only [checkNavigationLogic]
  rw [if_neg (by omega), if_pos ⟨by omega, hm⟩]

theorem check_final_announced (steps : List NavStep) (st : NavState)
    (lat lng : JSNum) (h : st.stepIndex + 1 = steps.length)
    (hm : "finished" ∈ st.announced) :
    checkNavigationLogic steps st lat lng =
      ({ st with distanceToNext := 0 }, []) := by
  simp only [checkNavigationLogic]
  rw [if_neg (by omega), if_neg (fun hc => hc.2 hm)]

theorem check_final_state (steps : List NavStep) (st : NavState)
    (lat lng : JSNum) (h : st.stepIndex + 1 = steps.length) :
    (checkNavigationLogic steps st lat lng).1.stepIndex = st.stepIndex ∧
    (checkNavigationLogic steps st lat lng).1.distanceToNext = 0 ∧
    (checkNavigationLogic steps st lat lng).1.stepIndex + 1 = steps.length := by
  by_cases hm : "finished" ∈ st.announced
  · rw [check_final_announced steps st lat lng h hm]
    exact ⟨rfl, rfl, h⟩
  · rw [check_final_not_announced steps st lat lng h hm]
    exact ⟨rfl, rfl, h⟩

theorem runFixes_final_stepIndex (steps : List NavStep)
    (fixes : List (JSNum × JSNum)) (st : NavState)
    (h : st.stepIndex + 1 = steps.length) :
    (runFixes steps fixes st).1.stepIndex = st.stepIndex := by
  induction fixes generalizing st with
  | nil => rfl
  | cons f rest ih =>
    unfold runFixes
    have hs := check_final_state steps st f.1 f.2 h
    have := ih (checkNavigationLogic steps st f.1 f.2).1 hs.2.2
    simp only at this ⊢
    rw [this, hs.1]

/-- C3: once the step index is at the final step (index + 1 = number of
steps), each fix sets distance-to-next to 0 and leaves the index unchanged;
if arrival has not been announced yet the fix announces it and clears the
driving flag; over any fix sequence the index never moves, arrival fires at
most once, and exactly once on a non-empty sequence starting un-announced. -/
theorem arrival_terminality (steps : List NavStep) (st : NavState)
    (lat lng : JSNum) (fixes : List (JSNum × JSNum))
    (h : st.stepIndex + 1 = steps.length) :
    (checkNavigationLogic steps st lat lng).1.distanceToNext = 0 ∧
    (checkNavigationLogic steps st lat lng).1.stepIndex = st.stepIndex ∧
    ("finished" ∉ st.announced →
      (checkNavigationLogic steps st lat lng).1.isDriving = false ∧
      "finished" ∈ (checkNavigationLogic steps st lat lng).1.announced) ∧
    ("finished" ∈ st.announced →
      (checkNavigationLogic steps st lat lng).1.isDriving = st.isDriving) ∧
    (runFixes steps fixes st).1.stepIndex = st.stepIndex ∧
    countFires steps fixes st "finished" ≤ 1 ∧
    (fixes ≠ [] → "finished" ∉ st.announced →
      countFires steps fixes st "finished" = 1) := by
  refine ⟨(check_final_state steps st lat lng h).2.1,
    (check_final_state steps st lat lng h).1, ?_, ?_,
    runFixes_final_stepIndex steps fixes st h,
    countFires_le_one steps fixes st "finished", ?_⟩
  · intro hm
    rw [check_final_not_announced steps st lat lng h hm]
    exact ⟨rfl, List.mem_cons_self _ _⟩
  · intro hm
    rw [check_final_announced steps st lat lng h hm]
  · intro hne hm
    match fixes with
    | [] => exact absurd rfl hne
    | f :: rest =>
      unfold countFires
      have hfired : firedOn steps st f.1 f.2 "finished" := by
        refine ⟨hm, ?_⟩
        rw [check_final_not_announced steps st f.1 f.2 h hm]
        exact List.mem_cons_self _ _
      rw [if_pos hfired, countFires_of_mem steps rest _ hfired.2]

/-! ## C2: announcement idempotence -/

theorem check_main_announced (steps : List NavStep) (st : NavState)
    (lat lng : JSNum) (h1 : st.stepIndex + 1 < steps.length)
    (h2 : isSafeNumber (approachLat steps (st.stepIndex + 1)) = true)
    (h3 : isSafeNumber (approachLng steps (st.stepIndex + 1)) = true) :
    (checkNavigationLogic steps st lat lng).1.announced =
      (navAnnounce (stepAt steps (st.stepIndex + 1))
        ("step-" ++ toString st.stepIndex)
        (jsRound (getDistance lat lng (approachLat steps (st.stepIndex + 1))
          (approachLng steps (st.stepIndex + 1)))) st.announced).1 := by
  simp only [checkNavigationLogic]
  rw [if_pos h1, h2, h3]
  simp only [Bool.and_self]
  rw [if_pos trivial]
  split_ifs <;> rfl

theorem check_main_stepIndex_ge (steps : List NavStep) (st : NavState)
    (lat lng : JSNum) (h1 : st.stepIndex + 1 < steps.length)
    (h2 : isSafeNumber (approachLat steps (st.stepIndex + 1)) = true)
    (h3 : isSafeNumber (approachLng steps (st.stepIndex + 1)) = true)
    (hge : 25 ≤ jsRound (getDistance lat lng (approachLat steps (st.stepIndex + 1))
      (approachLng steps (st.stepIndex + 1)))) :
    (checkNavigationLogic steps st lat lng).1.stepIndex = st.stepIndex := by
  simp only [checkNavigationLogic]
  rw [if_pos h1, h2, h3]
  simp only [Bool.and_self]
  rw [if_pos trivial, if_neg (not_lt.mpr hge)]

/-- Core induction for the distant announcement: while every processed fix
stays at least 25 m away (so the step index stays put), the distant key for
the current step fires exactly as often as the band (450, 500] is entered,
namely once if some fix lies in it and never otherwise. -/
theorem distant_once_aux (steps : List NavStep) (i : ℕ)
    (h1 : i + 1 < steps.length)
    (h2 : isSafeNumber (approachLat steps (i + 1)) = true)
    (h3 : isSafeNumber (approachLng steps (i + 1)) = true)
    (fixes : List (JSNum × JSNum)) :
    ∀ st : NavState, st.stepIndex = i →
      ("step-" ++ toString i ++ "-500m") ∉ st.announced →
      (∀ f ∈ fixes, 25 ≤ distOf steps i f) →
      countFires steps fixes st ("step-" ++ toString i ++ "-500m") =
        (if ∃ f ∈ fixes, 450 < distOf steps i f ∧ distOf steps i f ≤ 500
         then 1 else 0) := by
  induction fixes with
  | nil =>
    intro st hidx htag hge
    simp [countFires]
  | cons f rest ih =>
    intro st hidx htag hge
    have h1' : st.stepIndex + 1 < steps.length := by rw [hidx]; exact h1
    have h2' : isSafeNumber (approachLat steps (st.stepIndex + 1)) = true := by
      rw [hidx]; exact h2
    have h3' : isSafeNumber (approachLng steps (st.stepIndex + 1)) = true := by
      rw [hidx]; exact h3
    have hgef : 25 ≤ distOf steps i f := hge f (List.mem_cons_self _ _)
    have hann := check_main_announced steps st f.1 f.2 h1' h2' h3'
    rw [hidx] at hann
    have hstep : (checkNavigationLogic steps st f.1 f.2).1.stepIndex = i := by
      rw [check_main_stepIndex_ge steps st f.1 f.2 h1' h2' h3'
        (by rw [hidx]; exact hgef), hidx]
    have hmem_iff : ("step-" ++ toString i ++ "-500m") ∈
        (checkNavigationLogic steps st f.1 f.2).1.announced ↔
        ("step-" ++ toString i ++ "-500m") ∈ st.announced ∨
          (distOf steps i f ≤ 500 ∧ 450 < distOf steps i f) := by
      rw [hann, navAnnounce_mem_500]
      rfl
    by_cases hband : 450 < distOf steps i f ∧ distOf steps i f ≤ 500
    · have hfired : firedOn steps st f.1 f.2 ("step-" ++ toString i ++ "-500m") :=
        ⟨htag, hmem_iff.mpr (Or.inr ⟨hband.2, hband.1⟩)⟩
      unfold countFires
      rw [if_pos hfired, countFires_of_mem steps rest _ hfired.2,
        if_pos ⟨f, List.mem_cons_self _ _, hband⟩]
    · have hnot1 : ("step-" ++ toString i ++ "-500m") ∉
          (checkNavigationLogic steps st f.1 f.2).1.announced := by
        intro hmem
        rcases hmem_iff.mp hmem with hl | hr
        · exact htag hl
        · exact hband ⟨hr.2, hr.1⟩
      have hfired : ¬ firedOn steps st f.1 f.2 ("step-" ++ toString i ++ "-500m") :=
        fun hf => hnot1 hf.2
      unfold countFires
      rw [if_neg hfired,
        ih (checkNavigationLogic steps st f.1 f.2).1 hstep hnot1
          (fun g hg => hge g (List.mem_cons_of_mem _ hg))]
      have hiff : (∃ g ∈ f :: rest,
          450 < distOf steps i g ∧ distOf steps i g ≤ 500) ↔
          (∃ g ∈ rest, 450 < distOf steps i g ∧ distOf steps i g ≤ 500) := by
        constructor
        · rintro ⟨g, hg, hb⟩
          rcases List.mem_cons.mp hg with hco | hco
          · subst hco; exact absurd hb hband
          · exact ⟨g, hco, hb⟩
        · rintro ⟨g, hg, hb⟩
          exact ⟨g, List.mem_cons_of_mem _ hg, hb⟩
      rw [if_congr hiff rfl rfl]
      omega

/-- C2: every announcement key fires at most once per session; in particular
on a fix sequence that stays at the same step (all distances ≥ 25 m), with
the distant key not yet announced, and that enters the (450, 500] band at
least once, the distant announcement for the current step fires exactly
once. -/
theorem announcement_idempotence (steps : List NavStep) (st : NavState)
    (fixes : List (JSNum × JSNum)) (t : String) :
    countFires steps fixes st t ≤ 1 ∧
    (st.stepIndex + 1 < steps.length →
     isSafeNumber (approachLat steps (st.stepIndex + 1)) = true →
     isSafeNumber (approachLng steps (st.stepIndex + 1)) = true →
     ("step-" ++ toString st.stepIndex ++ "-500m") ∉ st.announced →
     (∀ f ∈ fixes, 25 ≤ distOf steps st.stepIndex f) →
     (∃ f ∈ fixes, 450 < distOf steps st.stepIndex f ∧
        distOf steps st.stepIndex f ≤ 500) →
     countFires steps fixes st ("step-" ++ toString st.stepIndex ++ "-500m")
       = 1) := by
  refine ⟨countFires_le_one steps fixes st t, ?_⟩
  intro h1 h2 h3 h4 h5 h6
  rw [distant_once_aux steps st.stepIndex h1 h2 h3 fixes st rfl h4 h5,
    if_pos h6]

/-- The distance computed by the engine from `demoFix` to `demoSteps`' step-1
approach coordinate: 0.0042 degrees of longitude along the equator round to
exactly 467 meters. -/
theorem demoFix_distOf : distOf demoSteps 0 demoFix = 467 := by
  have hgd : getDistance (.fin 0) (.fin 0.0042) (.fin 0) (.fin 0) =
      6371e3 * (2 * (7 * Real.pi / 600000)) := by
    unfold getDistance
    simp only [isSafeNumber, Bool.and_self, if_true, JSNum.val]
    simp only [haversineDist]
    have hu : toRad ((0:ℝ) - 0.0042) / 2 = -(7 * Real.pi / 600000) := by
      unfold toRad; ring
    have h0 : toRad ((0:ℝ) - 0) / 2 = 0 := by unfold toRad; ring
    rw [hu, h0, toRad_zero, Real.sin_zero, Real.cos_zero, Real.sin_neg]
    set u := 7 * Real.pi / 600000 with hudef
    have hu0 : 0 < u := by rw [hudef]; positivity
    have hupi2 : u < Real.pi / 2 := by rw [hudef]; nlinarith [Real.pi_pos]
    have hsin : 0 ≤ Real.sin u :=
      Real.sin_nonneg_of_nonneg_of_le_pi (le_of_lt hu0)
        (by rw [hudef]; nlinarith [Real.pi_pos])
    have hcos : 0 < Real.cos u :=
      Real.cos_pos_of_mem_Ioo ⟨by nlinarith [Real.pi_pos], hupi2⟩
    have ha1 : Real.sin u * Real.sin u ≤ 1 := by
      nlinarith [Real.neg_one_le_sin u, Real.sin_le_one u]
    have ha0 : (0:ℝ) ≤ Real.sin u * Real.sin u := mul_self_nonneg _
    have hA : (0:ℝ) * 0 + 1 * 1 * (-Real.sin u * -Real.sin u) =
        Real.sin u * Real.sin u := by ring
    rw [hA, max_eq_right ha0, min_eq_right ha1, Real.sqrt_mul_self hsin]
    have h1ma : 1 - Real.sin u * Real.sin u = Real.cos u * Real.cos u := by
      nlinarith [Real.sin_sq_add_cos_sq u]
    rw [h1ma, Real.sqrt_mul_self (le_of_lt hcos)]
    have hatan : atan2 (Real.sin u) (Real.cos u) = u := by
      unfold atan2
      rw [if_pos hcos, ← Real.tan_eq_sin_div_cos]
      exact Real.arctan_tan (by nlinarith [Real.pi_pos]) hupi2
    rw [hatan]
  have hredex : distOf demoSteps 0 demoFix =
      jsRound (6371e3 * (2 * (7 * Real.pi / 600000))) := by
    unfold distOf
    rw [show demoFix.1 = JSNum.fin 0 from rfl,
      show demoFix.2 = JSNum.fin 0.0042 from rfl,
      show approachLat demoSteps (0 + 1) = JSNum.fin 0 from rfl,
      show approachLng demoSteps (0 + 1) = JSNum.fin 0 from rfl, hgd]
  rw [hredex]
  unfold jsRound
  refine Int.floor_eq_iff.mpr ⟨?_, ?_⟩ <;> push_cast <;>
    nlinarith [Real.pi_gt_d6, Real.pi_lt_d6]

/-- Witness for C2: two-step route, fresh state, a single fix 467 m from the
step-1 approach point (inside the (450, 500] band); the distant announcement
fires exactly once. -/
theorem announcement_idempotence_witness :
    demoState.stepIndex + 1 < demoSteps.length ∧
    (∀ f ∈ [demoFix], 25 ≤ distOf demoSteps 0 f) ∧
    (∃ f ∈ [demoFix], 450 < distOf demoSteps 0 f ∧ distOf demoSteps 0 f ≤ 500) ∧
    countFires demoSteps [demoFix] demoState
      ("step-" ++ toString 0 ++ "-500m") = 1 := by
  have hge : ∀ f ∈ [demoFix], 25 ≤ distOf demoSteps 0 f := by
    intro f hf
    rw [List.mem_singleton] at hf
    subst hf
    rw [demoFix_distOf]
    norm_num
  have hband : ∃ f ∈ [demoFix],
      450 < distOf demoSteps 0 f ∧ distOf demoSteps 0 f ≤ 500 := by
    refine ⟨demoFix, List.mem_singleton_self _, ?_⟩
    rw [demoFix_distOf]
    norm_num
  exact ⟨by decide, hge, hband,
    (announcement_idempotence demoSteps demoState [demoFix] "x").2
      (by decide) rfl rfl (by simp [demoState]) hge hband⟩

/-- Witness for C3: a one-step route at its final step, one fix, nothing yet
announced. -/
theorem arrival_terminality_witness :
    demoState.stepIndex + 1 = demoStepsFinal.length ∧
    countFires demoStepsFinal [((.fin 0 : JSNum), (.fin 0 : JSNum))] demoState
      "finished" = 1 :=
  ⟨rfl,
   (arrival_terminality demoStepsFinal demoState (.fin 0) (.fin 0)
      [((.fin 0 : JSNum), (.fin 0 : JSNum))] rfl).2.2.2.2.2.2
     (by simp) (by simp [demoState])⟩

end GPSBUS
